import Mathlib

/-!
Shallow embedding of the go-netconf-client session engine.

The source (src/unnamed/part_000 and part_001, package `netconf`) defines a
`Session` holding a `Transport`, a server-assigned session id, the peer's
capability list, a closed flag, a `Dispatcher` (called `Listener`) and a
subscription-active flag. Byte strings are modelled as `List Char`; the
external transport is modelled as an explicit state (`TransportState`) that
records every `Send` together with the framing version active at the moment
of the call; the external XML marshal/unmarshal steps and the external
message-catalog decoders are passed in as explicit oracle arguments, so every
branch of the Go code on their results is transcribed literally.
-/

/-- Raw bytes on the wire (Go `[]byte` / `string`), modelled as a char list. -/
abbrev Raw := List Char

/-- Helper for `containsSub`: does the first list occur at the head of the
second?  (Mirrors the prefix test inside Go's `strings.Contains`.) -/
def isPrefixChars : List Char → List Char → Bool
  | [], _ => true
  | _ :: _, [] => false
  | a :: as, b :: bs => a == b && isPrefixChars as bs

/-- Go `strings.Contains hay sub`: `sub` occurs somewhere inside `hay`. -/
def containsSub : List Char → List Char → Bool
  | [], sub => isPrefixChars sub []
  | a :: t, sub => isPrefixChars sub (a :: t) || containsSub t sub

/-- Go's `xml.Header` constant, prepended to every outgoing payload by
`SendHello`, `ExecRPC` and `marshall` in the source. -/
def xmlHeader : Raw := "<?xml version=\"1.0\" encoding=\"UTF-8\"?>\n".toList

/-- The literal `"<rpc-reply"` marker tested in `Session.listen`. -/
def rpcReplyMarker : Raw := "<rpc-reply".toList

/-- The literal `"<notification"` marker tested in `Session.listen`. -/
def notificationMarker : Raw := "<notification".toList

/-- Modelled from the spec: the well-known notification handler key
`message.NetconfNotificationStreamHandler` is a constant of the external
message catalog (its source is not under src/); only its identity matters
here, so any fixed string represents it. -/
def NetconfNotificationStreamHandler : String := "NETCONF-NOTIF-STREAM-HANDLER"

/-- Errors surfaced by the session operations. -/
inductive NetconfErr
  | marshalErr
  | transportErr (code : Nat)
  | decodeErr
  deriving DecidableEq

/-- One entry of the dispatcher registry: a correlation key, the registered
consumer (identified by a numeric tag, since only identity matters), and its
persistence class. -/
structure DispatchEntry where
  key : String
  cb : Nat
  durable : Bool
  deriving DecidableEq

/-- Modelled from the spec: the Dispatcher (event-correlation registry) is
part of this repository but its source is not under src/.  Per the spec it is
a registry from correlation key to a pending consumer, single-shot or
durable. -/
structure Dispatcher where
  entries : List DispatchEntry
  deriving DecidableEq

/-- Modelled from the spec: `init` creates the empty registry. -/
def Dispatcher.init : Dispatcher := ⟨[]⟩

/-- Modelled from the spec: `register` associates one consumer with one key,
overwriting any prior registration under the same key (last writer wins).
The source registers the durable subscription consumer under the well-known
notification handler key and single-shot RPC consumers under message ids, so
persistence is determined by the key. -/
def Dispatcher.Register (d : Dispatcher) (key : String) (cb : Nat) : Dispatcher :=
  ⟨⟨key, cb, key == NetconfNotificationStreamHandler⟩ ::
    d.entries.filter (fun e => !(e.key == key))⟩

/-- Modelled from the spec: `remove` deletes a registration if present. -/
def Dispatcher.Remove (d : Dispatcher) (key : String) : Dispatcher :=
  ⟨d.entries.filter (fun e => !(e.key == key))⟩

/-- Whether some consumer is registered under `key`. -/
def Dispatcher.hasKey (d : Dispatcher) (key : String) : Bool :=
  d.entries.any (fun e => e.key == key)

/-- Modelled from the spec: `dispatch` invokes the consumer registered under
the key (if any); a single-shot registration is removed right after the
invocation, a durable one stays, and a missing key drops the event silently.
Only the registry-state effect is modelled here. -/
def Dispatcher.Dispatch (d : Dispatcher) (key : String) : Dispatcher :=
  match d.entries.find? (fun e => e.key == key) with
  | none => d
  | some e => if e.durable then d else d.Remove key

/-- State of the external transport: the current framing version, the log of
sent payloads (each tagged with the framing version active when `Send` was
called), and whether `Close` has been called. -/
structure TransportState where
  version : String
  sentLog : List (String × Raw)
  closedT : Bool
  deriving DecidableEq

/-- Go `Transport.Send`: records the payload under the current framing version. -/
def TransportState.Send (t : TransportState) (payload : Raw) : TransportState :=
  { t with sentLog := t.sentLog ++ [(t.version, payload)] }

/-- Go `Transport.SetVersion`: switches the framing scheme of later calls. -/
def TransportState.SetVersion (t : TransportState) (v : String) : TransportState :=
  { t with version := v }

/-- Go `Transport.Close`. -/
def TransportState.CloseT (t : TransportState) : TransportState :=
  { t with closedT := true }

/-- The `message.Hello` fields as used by the session code: session id and capability
list (part_000 lines 37-39). -/
structure Hello where
  SessionID : Int
  Capabilities : List Raw
  deriving DecidableEq

/-- Go's `new(message.Hello)` zero value. -/
def Hello.zero : Hello := ⟨0, []⟩

/-- The `Session` struct of part_000 (plus the `IsNotificationStreamCreated`
field used by part_001); the transport is carried separately as explicit
state. -/
structure Session where
  SessionID : Int
  Capabilities : List Raw
  IsClosed : Bool
  Listener : Dispatcher
  IsNotificationStreamCreated : Bool
  deriving DecidableEq

/-- Result of one blocking `Transport.Receive()` call. -/
inductive RecvResult
  | recvErr (code : Nat)
  | recvOk (raw : Raw)
  deriving DecidableEq

/-- Go `Session.ReceiveHello` (part_000 lines 77-89): sets `IsClosed` to false,
receives, and decodes; on a receive error it returns the zero `Hello`
together with the error, on a decode error the zero `Hello` and the error.
`dec` is the external `xml.Unmarshal` into `Hello`. -/
def Session.ReceiveHello (dec : Raw → Except Unit Hello) (r : RecvResult)
    (s : Session) : Session × Hello × Option NetconfErr :=
  let s' := { s with IsClosed := false }
  match r with
  | .recvErr c => (s', Hello.zero, some (.transportErr c))
  | .recvOk raw =>
    match dec raw with
    | .error _ => (s', Hello.zero, some .decodeErr)
    | .ok h => (s', h, none)

/-- Go `NewSession` (part_000 lines 32-45): zero-initializes the session,
performs `ReceiveHello` and discards its error (the Go code writes
`serverHello, _ := s.ReceiveHello()`), copies the hello's fields, and
installs a fresh dispatcher.  Its return type has no error channel. -/
def NewSession (dec : Raw → Except Unit Hello) (r : RecvResult) : Session :=
  let s0 : Session := ⟨0, [], false, Dispatcher.init, false⟩
  let res := s0.ReceiveHello dec r
  let serverHello := res.2.1
  { res.1 with
      SessionID := serverHello.SessionID
      Capabilities := serverHello.Capabilities
      Listener := Dispatcher.init }

/-- The capability scan at the end of `SendHello` (part_000 lines 61-66):
`for _, capability := range caps { if strings.Contains(capability, nv11)
{ SetVersion("v1.1"); break } }`. -/
def setVersionLoop (nv11 : Raw) (caps : List Raw) (t : TransportState) :
    TransportState :=
  match caps with
  | [] => t
  | c :: rest =>
    if containsSub c nv11 then t.SetVersion "v1.1" else setVersionLoop nv11 rest t

/-- Result of `Session.SendHello`. -/
structure SendHelloResult where
  session : Session
  transport : TransportState
  err : Option NetconfErr
  listenStarted : Bool
  deriving DecidableEq

/-- Go `Session.SendHello` (part_000 lines 48-73): marshal the hello (error
returned at once), prepend `xml.Header`, `Send`, then `SetVersion("v1.0")`
followed by the capability scan that switches to "v1.1" when some peer
capability contains the `message.NetconfVersion11` token (`nv11`, a constant
of the external message catalog, passed in abstractly), then start the
receive loop; the send error is returned last. -/
def Session.SendHello (nv11 : Raw) (marshalRes : Except Unit Raw)
    (sendErr : Option Nat) (s : Session) (t : TransportState) : SendHelloResult :=
  match marshalRes with
  | .error _ => ⟨s, t, some .marshalErr, false⟩
  | .ok val =>
    let payload := xmlHeader ++ val
    let t1 := t.Send payload
    let sendRes : Option NetconfErr := sendErr.map .transportErr
    let t2 := t1.SetVersion "v1.0"
    let t3 := setVersionLoop nv11 s.Capabilities t2
    ⟨s, t3, sendRes, true⟩

theorem setVersionLoop_sentLog (nv11 : Raw) (caps : List Raw)
    (t : TransportState) : (setVersionLoop nv11 caps t).sentLog = t.sentLog := by
  induction caps generalizing t with
  | nil => rfl
  | cons c rest ih =>
    simp only [setVersionLoop]
    split
    · rfl
    · exact ih t

theorem setVersionLoop_version (nv11 : Raw) (caps : List Raw)
    (t : TransportState) :
    (setVersionLoop nv11 caps t).version =
      (if caps.any (fun c => containsSub c nv11) then "v1.1" else t.version) := by
  induction caps generalizing t with
  | nil => simp [setVersionLoop]
  | cons c rest ih =>
    by_cases h : containsSub c nv11 = true
    · simp [setVersionLoop, h, TransportState.SetVersion]
    · simp [setVersionLoop, h, ih]

/-- C1: `SendHello` sends the local Hello using version-1.0 framing (the
transport's base framing, unchanged until after the send), and afterwards
the transport's framing is "v1.1" exactly when some capability in the peer
capability set captured at construction contains the 1.1 version token;
otherwise it stays "v1.0". -/
theorem sendHello_v10_framing_and_version_switch
    (nv11 val : Raw) (sendErr : Option Nat) (s : Session) (t : TransportState)
    (hbase : t.version = "v1.0") :
    (Session.SendHello nv11 (Except.ok val) sendErr s t).transport.sentLog
        = t.sentLog ++ [("v1.0", xmlHeader ++ val)]
      ∧ (Session.SendHello nv11 (Except.ok val) sendErr s t).transport.version
        = (if s.Capabilities.any (fun c => containsSub c nv11) then "v1.1"
            else "v1.0") := by
  constructor
  · show (setVersionLoop nv11 s.Capabilities
        ((t.Send (xmlHeader ++ val)).SetVersion "v1.0")).sentLog = _
    rw [setVersionLoop_sentLog]
    simp [TransportState.Send, TransportState.SetVersion, hbase]
  · show (setVersionLoop nv11 s.Capabilities
        ((t.Send (xmlHeader ++ val)).SetVersion "v1.0")).version = _
    rw [setVersionLoop_version]
    simp [TransportState.SetVersion]

/-- A fresh transport in its base framing with an empty send log. -/
def t0 : TransportState := ⟨"v1.0", [], false⟩

/-- Sample value of the external `message.NetconfVersion11` token. -/
def nv11Sample : Raw := "urn:ietf:params:netconf:base:1.1".toList

/-- Sample peer capability set advertising both base versions. -/
def capsSample : List Raw :=
  ["urn:ietf:params:netconf:base:1.0".toList,
   "urn:ietf:params:netconf:base:1.1".toList]

/-- Sample session as produced by a handshake against `capsSample`. -/
def sessionSample : Session := ⟨9, capsSample, false, Dispatcher.init, false⟩

/-- Sample marshalled hello body. -/
def helloVal : Raw := "<hello/>".toList

/-- Witness for C1 at a concrete handshake. -/
theorem sendHello_v10_framing_witness :
    t0.version = "v1.0"
    ∧ ((Session.SendHello nv11Sample (Except.ok helloVal) none sessionSample
          t0).transport.sentLog
        = t0.sentLog ++ [("v1.0", xmlHeader ++ helloVal)]
      ∧ (Session.SendHello nv11Sample (Except.ok helloVal) none sessionSample
          t0).transport.version
        = (if sessionSample.Capabilities.any
              (fun c => containsSub c nv11Sample) then "v1.1" else "v1.0")) :=
  ⟨rfl, sendHello_v10_framing_and_version_switch nv11Sample helloVal none
    sessionSample t0 rfl⟩

/-- The `message.RPCReply` fields as used by the session code: the correlation id it is
dispatched under and the protocol-level error list inspected by
`CreateNotificationStream`. -/
structure RPCReply where
  MessageID : String
  Errors : List String
  deriving DecidableEq

/-- The `message.Notification` fields used by the session code. -/
structure Notification where
  SubscriptionID : String
  deriving DecidableEq

/-- Log lines printed by the receive loop (part_000 lines 103, 111, 119,
124, 128). -/
inductive LogEvent
  | recvFailed
  | replyDecodeFailed
  | notifDecodeFailed
  | unknownMessage
  | exitMessage
  deriving DecidableEq

/-- One `Listener.Dispatch(key, kind, payload)` call as issued by the loop
(kind 0 for replies, 1 for notifications, the literal ints in the source). -/
structure DispatchCall where
  key : String
  kind : Nat
  deriving DecidableEq

/-- What an iteration of the `for` loop in `Session.listen` does next. -/
inductive LoopAction
  | continueLoop
  | exitLoop
  deriving DecidableEq

/-- One iteration of the receive loop in `Session.listen` (part_000 lines
100-131), transcribed branch by branch: a receive error is logged and the
iteration ends in `continue` (the closed-flag check at lines 127-130 is
textually after the classification block, so it is not reached); a payload
containing `"<rpc-reply"` is decoded (`decReply` is the external
`message.NewRPCReply`) and on success dispatched under its message id with
kind 0, a decode failure being logged and `continue`d; otherwise a payload
containing `"<notification"` is decoded (`decNotif` is
`message.NewNotification`) and dispatched under its subscription id with
kind 1; any other payload is logged as unknown; finally, on the paths that
reach it, the closed flag is checked and the loop exits when it is set. -/
def Session.listenIter (decReply : Raw → Except Unit RPCReply)
    (decNotif : Raw → Except Unit Notification) (r : RecvResult) (s : Session) :
    Session × List LogEvent × List DispatchCall × LoopAction :=
  match r with
  | .recvErr _ => (s, [.recvFailed], [], .continueLoop)
  | .recvOk raw =>
    if containsSub raw rpcReplyMarker then
      match decReply raw with
      | .error _ => (s, [.replyDecodeFailed], [], .continueLoop)
      | .ok rep =>
        let s' := { s with Listener := s.Listener.Dispatch rep.MessageID }
        if s'.IsClosed then
          (s', [.exitMessage], [⟨rep.MessageID, 0⟩], .exitLoop)
        else
          (s', [], [⟨rep.MessageID, 0⟩], .continueLoop)
    else if containsSub raw notificationMarker then
      match decNotif raw with
      | .error _ => (s, [.notifDecodeFailed], [], .continueLoop)
      | .ok n =>
        let s' := { s with Listener := s.Listener.Dispatch n.SubscriptionID }
        if s'.IsClosed then
          (s', [.exitMessage], [⟨n.SubscriptionID, 1⟩], .exitLoop)
        else
          (s', [], [⟨n.SubscriptionID, 1⟩], .continueLoop)
    else
      if s.IsClosed then
        (s, [.unknownMessage, .exitMessage], [], .exitLoop)
      else
        (s, [.unknownMessage], [], .continueLoop)

/-- A session whose closed flag has been set by `Close`. -/
def closedSession : Session := ⟨9, capsSample, true, Dispatcher.init, false⟩

/-- A reply decoder that always fails. -/
def decFailR : Raw → Except Unit RPCReply := fun _ => Except.error ()

/-- A notification decoder that always fails. -/
def decFailN : Raw → Except Unit Notification := fun _ => Except.error ()

/-- C2: the code diverges from the claim.  On a transport receive error the
loop logs and `continue`s even when the closed flag is already set (the state
every receive is in after `Close()` closes the transport): the iteration
yields `continueLoop`, not the exit the claim and spec describe, so the loop
never terminates through its intended close path. -/
theorem listenIter_recvErr_while_closed_continues :
    Session.listenIter decFailR decFailN (RecvResult.recvErr 0) closedSession
      = (closedSession, [LogEvent.recvFailed], [], LoopAction.continueLoop) := rfl

/-- C8: classification of a successfully received payload in the receive
loop.  A payload containing the RPC-reply marker whose decode succeeds is
dispatched exactly once under its message id with kind 0 (Reply); otherwise
a payload containing the notification marker whose decode succeeds is
dispatched exactly once under its subscription id with kind 1; a payload
containing neither marker is logged as unknown and dropped with no dispatch
call. -/
theorem listenIter_classifies_by_marker
    (decReply : Raw → Except Unit RPCReply)
    (decNotif : Raw → Except Unit Notification) (raw : Raw) (s : Session) :
    (containsSub raw rpcReplyMarker = true →
      ∀ rep, decReply raw = Except.ok rep →
        (Session.listenIter decReply decNotif (RecvResult.recvOk raw) s).2.2.1
          = [⟨rep.MessageID, 0⟩])
    ∧ (containsSub raw rpcReplyMarker = false →
        containsSub raw notificationMarker = true →
        ∀ n, decNotif raw = Except.ok n →
          (Session.listenIter decReply decNotif (RecvResult.recvOk raw) s).2.2.1
            = [⟨n.SubscriptionID, 1⟩])
    ∧ (containsSub raw rpcReplyMarker = false →
        containsSub raw notificationMarker = false →
        Session.listenIter decReply decNotif (RecvResult.recvOk raw) s
          = (s, [LogEvent.unknownMessage]
                  ++ (if s.IsClosed then [LogEvent.exitMessage] else []), [],
              if s.IsClosed then LoopAction.exitLoop
              else LoopAction.continueLoop)) := by
  refine ⟨?_, ?_, ?_⟩
  · intro hc rep hdec
    simp only [Session.listenIter, hc, hdec, if_true]
    split <;> rfl
  · intro hc hn n hdec
    simp only [Session.listenIter, hc, hn, hdec]
    simp only [Bool.false_eq_true, if_false, if_true]
    split <;> rfl
  · intro hc hn
    simp only [Session.listenIter, hc, hn, Bool.false_eq_true, if_false]
    by_cases h : s.IsClosed <;> simp [h]

/-- A concrete inbound reply payload. -/
def rawReplySample : Raw := "<rpc-reply>ok</rpc-reply>".toList

/-- A concrete inbound notification payload. -/
def rawNotifSample : Raw := "<notification>ev</notification>".toList

/-- A concrete inbound payload matching neither marker. -/
def rawJunkSample : Raw := "<weird/>".toList

/-- A reply decoder succeeding with message id "42". -/
def decOkR : Raw → Except Unit RPCReply := fun _ => Except.ok ⟨"42", []⟩

/-- A notification decoder succeeding with subscription id "sub-1". -/
def decOkN : Raw → Except Unit Notification := fun _ => Except.ok ⟨"sub-1"⟩

/-- Witness for C8 on all three classification branches. -/
theorem listenIter_classifies_by_marker_witness :
    (Session.listenIter decOkR decOkN (RecvResult.recvOk rawReplySample)
        sessionSample).2.2.1 = [⟨"42", 0⟩]
    ∧ (Session.listenIter decOkR decOkN (RecvResult.recvOk rawNotifSample)
        sessionSample).2.2.1 = [⟨"sub-1", 1⟩]
    ∧ Session.listenIter decOkR decOkN (RecvResult.recvOk rawJunkSample)
        sessionSample
      = (sessionSample, [LogEvent.unknownMessage], [], LoopAction.continueLoop) :=
  ⟨(listenIter_classifies_by_marker decOkR decOkN rawReplySample
      sessionSample).1 (by decide) ⟨"42", []⟩ rfl,
   (listenIter_classifies_by_marker decOkR decOkN rawNotifSample
      sessionSample).2.1 (by decide) (by decide) ⟨"sub-1"⟩ rfl,
   by
    have h := (listenIter_classifies_by_marker decOkR decOkN rawJunkSample
      sessionSample).2.2 (by decide) (by decide)
    simpa using h⟩

/-- Go `Session.Close` (part_000 lines 92-95): sets the closed flag and closes
the transport, returning the transport's close error. -/
def Session.Close (closeErr : Option Nat) (s : Session) (t : TransportState) :
    Session × TransportState × Option NetconfErr :=
  ({ s with IsClosed := true }, t.CloseT, closeErr.map .transportErr)

/-- The `marshall` helper of part_001 (lines 148-157): `xml.Marshal` (whose
result is the oracle argument) followed by prepending `xml.Header`. -/
def marshall (marshalRes : Except Unit Raw) : Except Unit Raw :=
  match marshalRes with
  | .error e => .error e
  | .ok val => .ok (xmlHeader ++ val)

/-- The Go pair `(rpc *message.RPCReply, err error)` returned by `SyncRPC`,
with a case for an invocation that never returns because the busy wait never
observes a reply. -/
inductive SyncRet
  | ret (rpc : Option RPCReply) (err : Option NetconfErr)
  | neverReturns
  deriving DecidableEq

/-- Go `Session.SyncRPC` (part_001 lines 113-146): marshal (returning
`(nil, err)` on failure before anything else), register the internal
capture callback under the operation's message id, send (returning
`(nil, err)` on failure, the registration staying in place), then busy-wait
for the reply flag with no timeout — `arrival` is the oracle saying whether
the concurrent receive loop ever fires the callback; when it never does,
the call never returns.  The closed flag is consulted nowhere. -/
def Session.SyncRPC (marshalRes : Except Unit Raw) (msgID : String)
    (cbId : Nat) (sendErr : Option Nat) (arrival : Option RPCReply)
    (s : Session) (t : TransportState) :
    Session × TransportState × SyncRet :=
  match marshall marshalRes with
  | .error _ => (s, t, .ret none (some .marshalErr))
  | .ok req =>
    let s' := { s with Listener := s.Listener.Register msgID cbId }
    let t' := t.Send req
    match sendErr with
    | some c => (s', t', .ret none (some (.transportErr c)))
    | none =>
      match arrival with
      | some rep => (s', t', .ret (some rep) none)
      | none => (s', t', .neverReturns)

/-- The busy wait `for !replyReceived { time.Sleep(100ms) }` of `SyncRPC`,
with an explicit poll budget: `received i` says whether the reply flag is
observed set at the i-th 100 ms poll; the wait returns the index of the
first successful poll and `none` when the budget is exhausted without the
flag ever being seen. -/
def syncWait (received : Nat → Bool) : Nat → Nat → Option Nat
  | 0, _ => none
  | fuel + 1, i => if received i then some i else syncWait received fuel (i + 1)

theorem syncWait_never_observes_none (fuel i : Nat) :
    syncWait (fun _ => false) fuel i = none := by
  induction fuel generalizing i with
  | zero => rfl
  | succ n ih => simpa [syncWait] using ih (i + 1)

/-- C4, counterexample: `SyncRPC`'s wait is not bounded.  When no matching
reply ever arrives, no poll budget whatsoever makes the busy wait complete:
there is no duration after which it returns (with a Timeout error or
anything else). -/
theorem syncWait_no_timeout_counterexample :
    ¬ ∃ fuel : Nat, (syncWait (fun _ => false) fuel 0).isSome = true := by
  rintro ⟨fuel, h⟩
  rw [syncWait_never_observes_none] at h
  exact Bool.false_ne_true h

/-- C4, amended: `SyncRPC` has no timeout.  The busy wait polls the reply
flag every 100 ms and stays pending for every poll budget when no matching
reply arrives, and the whole call never returns in that case (there is no
caller-specified duration and no Timeout error in the code). -/
theorem syncRPC_wait_unbounded (fuel i : Nat) (val : Raw) (msgID : String)
    (cbId : Nat) (s : Session) (t : TransportState) :
    syncWait (fun _ => false) fuel i = none
    ∧ (Session.SyncRPC (Except.ok val) msgID cbId none none s t).2.2
        = SyncRet.neverReturns :=
  ⟨syncWait_never_observes_none fuel i, rfl⟩

/-- C3, counterexample: the closed flag is not monotonic.  On a session whose
flag was set by `Close`, a later `ReceiveHello` unconditionally resets it to
false (part_000 line 78). -/
theorem receiveHello_resets_closed_counterexample :
    ((Session.ReceiveHello (fun _ => Except.error ()) (RecvResult.recvErr 0)
        closedSession).1).IsClosed = false := rfl

/-- C3, amended: only `Close` sets the closed flag; `ReceiveHello` always
resets it to false, and `SyncRPC` never consults it — it sends on the
transport (the send log grows) even when the flag is true. -/
theorem closed_flag_not_monotonic
    (dec : Raw → Except Unit Hello) (r : RecvResult) (closeErr : Option Nat)
    (s : Session) (t : TransportState) :
    ((Session.ReceiveHello dec r s).1).IsClosed = false
    ∧ ((Session.Close closeErr s t).1).IsClosed = true
    ∧ ∀ (val : Raw) (msgID : String) (cbId : Nat) (sendErr : Option Nat)
        (arrival : Option RPCReply),
        (Session.SyncRPC (Except.ok val) msgID cbId sendErr arrival s
            t).2.1.sentLog.length = t.sentLog.length + 1 := by
  refine ⟨?_, rfl, ?_⟩
  · cases r with
    | recvErr c => rfl
    | recvOk raw =>
      simp only [Session.ReceiveHello]
      cases dec raw <;> rfl
  · intro val msgID cbId sendErr arrival
    cases sendErr with
    | none =>
      cases arrival <;>
        simp [Session.SyncRPC, marshall, TransportState.Send]
    | some c => simp [Session.SyncRPC, marshall, TransportState.Send]

/-- The Go zero-value session, which `NewSession` starts from. -/
def goZeroSession : Session := ⟨0, [], false, Dispatcher.init, false⟩

/-- C5, counterexample: with a transport whose initial receive fails,
`ReceiveHello` reports an error, yet `NewSession` (which discards that error
and whose return type has no error channel) silently yields a fully
constructed session built from the zero-value Hello. -/
theorem newSession_silent_on_failure_counterexample :
    ((Session.ReceiveHello (fun _ => Except.error ()) (RecvResult.recvErr 7)
        goZeroSession).2.2).isSome = true
    ∧ NewSession (fun _ => Except.error ()) (RecvResult.recvErr 7)
        = goZeroSession :=
  ⟨rfl, rfl⟩

/-- C5, amended: `NewSession` surfaces no failure.  Whether the initial
receive fails or the decode of the server Hello fails, it always constructs
and returns a session, with session id 0 and an empty capability list taken
from the zero-value Hello. -/
theorem newSession_ignores_handshake_failure
    (dec : Raw → Except Unit Hello) (c : Nat) (raw : Raw) :
    NewSession dec (RecvResult.recvErr c) = goZeroSession
    ∧ NewSession (fun _ => Except.error ()) (RecvResult.recvOk raw)
        = goZeroSession :=
  ⟨rfl, rfl⟩

/-- Outcome of `CreateNotificationStream`: nil error on success, the
subscription-conflict error, the descriptive failure error of line 85, a
nil-pointer dereference panic while building that error, or no return at
all because the inner `SyncRPC` never returns. -/
inductive CNSOutcome
  | ok
  | conflictError
  | errReturn
  | nilPanic
  | blocked
  deriving DecidableEq

/-- Go `Session.CreateNotificationStream` (part_001 lines 72-89): return the
conflict error at once if a stream is already active; otherwise register the
caller's callback under the well-known notification handler key, run the
create-subscription request through `SyncRPC`, and on `err != nil ||
len(rpc.Errors) != 0` return the error built by `fmt.Errorf(..., rpc.Errors,
err)` — evaluating `rpc.Errors` dereferences `rpc`, which is nil on every
`SyncRPC` error path, so that branch panics when `rpc` is nil; on success
set the subscription-active flag.  No branch removes the registration. -/
def Session.CreateNotificationStream (marshalRes : Except Unit Raw)
    (subMsgID : String) (cbId : Nat) (sendErr : Option Nat)
    (arrival : Option RPCReply) (s : Session) (t : TransportState) :
    Session × TransportState × CNSOutcome :=
  if s.IsNotificationStreamCreated then (s, t, .conflictError)
  else
    let s1 := { s with Listener :=
      s.Listener.Register NetconfNotificationStreamHandler cbId }
    let res := s1.SyncRPC marshalRes subMsgID 0 sendErr arrival t
    match res.2.2 with
    | .ret rpc err =>
      if err.isSome then
        match rpc with
        | none => (res.1, res.2.1, .nilPanic)
        | some _ => (res.1, res.2.1, .errReturn)
      else
        match rpc with
        | none => (res.1, res.2.1, .nilPanic)
        | some rep =>
          if rep.Errors.length != 0 then (res.1, res.2.1, .errReturn)
          else ({ res.1 with IsNotificationStreamCreated := true },
            res.2.1, .ok)
    | .neverReturns => (res.1, res.2.1, .blocked)

/-- C7: with a subscription already active, `CreateNotificationStream`
returns the subscription-conflict error immediately, and the session (its
dispatcher registrations included) and the transport are returned exactly
unchanged. -/
theorem createNotificationStream_conflict (marshalRes : Except Unit Raw)
    (subMsgID : String) (cbId : Nat) (sendErr : Option Nat)
    (arrival : Option RPCReply) (s : Session) (t : TransportState)
    (h : s.IsNotificationStreamCreated = true) :
    Session.CreateNotificationStream marshalRes subMsgID cbId sendErr arrival
        s t = (s, t, CNSOutcome.conflictError) := by
  simp [Session.CreateNotificationStream, h]

/-- A session with an active subscription and a registration for it. -/
def subscribedSession : Session :=
  ⟨9, capsSample, false, Dispatcher.init.Register
    NetconfNotificationStreamHandler 5, true⟩

/-- Witness for C7 at a concrete session with an active subscription. -/
theorem createNotificationStream_conflict_witness :
    subscribedSession.IsNotificationStreamCreated = true
    ∧ Session.CreateNotificationStream (Except.ok []) "1" 6 none none
        subscribedSession t0 = (subscribedSession, t0, CNSOutcome.conflictError) :=
  ⟨rfl, createNotificationStream_conflict (Except.ok []) "1" 6 none none
    subscribedSession t0 rfl⟩

/-- C9: whenever the inner `SyncRPC` call comes back with a nil reply
together with a non-nil error (which is what every one of its error paths
returns), `CreateNotificationStream` panics on the nil dereference of
`rpc.Errors` instead of returning the descriptive error. -/
theorem createNotificationStream_nil_reply_panics (marshalRes : Except Unit Raw)
    (subMsgID : String) (cbId : Nat) (sendErr : Option Nat)
    (arrival : Option RPCReply) (s : Session) (t : TransportState)
    (hsub : s.IsNotificationStreamCreated = false)
    (hfail : ∃ e, (Session.SyncRPC marshalRes subMsgID 0 sendErr arrival
        s t).2.2 = SyncRet.ret none (some e)) :
    (Session.CreateNotificationStream marshalRes subMsgID cbId sendErr arrival
        s t).2.2 = CNSOutcome.nilPanic := by
  obtain ⟨e, he⟩ := hfail
  cases marshalRes with
  | error u =>
    simp [Session.CreateNotificationStream, hsub, Session.SyncRPC, marshall]
  | ok val =>
    cases sendErr with
    | some c =>
      simp [Session.CreateNotificationStream, hsub, Session.SyncRPC, marshall]
    | none =>
      cases arrival with
      | some rep => simp [Session.SyncRPC, marshall] at he
      | none => simp [Session.SyncRPC, marshall] at he

/-- A concrete marshalled create-subscription request. -/
def subRaw : Raw := "<create-subscription/>".toList

/-- Witness for C9: a failing transport send makes the inner `SyncRPC`
return `(nil, err)` and the whole call panic. -/
theorem createNotificationStream_nil_reply_panics_witness :
    goZeroSession.IsNotificationStreamCreated = false
    ∧ (∃ e, (Session.SyncRPC (Except.ok subRaw) "101" 0 (some 3) none
          goZeroSession t0).2.2 = SyncRet.ret none (some e))
    ∧ (Session.CreateNotificationStream (Except.ok subRaw) "101" 5 (some 3)
        none goZeroSession t0).2.2 = CNSOutcome.nilPanic :=
  ⟨rfl, ⟨NetconfErr.transportErr 3, rfl⟩,
    createNotificationStream_nil_reply_panics (Except.ok subRaw) "101" 5
      (some 3) none goZeroSession t0 rfl ⟨NetconfErr.transportErr 3, rfl⟩⟩

/-- A reply carrying a protocol-level error. -/
def badReply : RPCReply := ⟨"101", ["operation-failed"]⟩

/-- C6: the code diverges from the claim.  When the create-subscription
reply carries protocol-level errors, `CreateNotificationStream` returns the
descriptive error, but the durable registration made under the notification
handler key before sending is NOT retracted: it is still registered in the
returned session's dispatcher.  (And when the request fails at the
transport, the call panics — see the C9 theorem — rather than returning the
descriptive error.) -/
theorem createNotificationStream_leaks_registration :
    (Session.CreateNotificationStream (Except.ok subRaw) "101" 5 none
        (some badReply) goZeroSession t0).2.2 = CNSOutcome.errReturn
    ∧ (Session.CreateNotificationStream (Except.ok subRaw) "101" 5 none
        (some badReply) goZeroSession t0).1.Listener.hasKey
          NetconfNotificationStreamHandler = true :=
  ⟨rfl, rfl⟩

/-- Observable session-level actions of `AsyncRPC`, in program order. -/
inductive SessionAct
  | registeredKey (key : String)
  | sentPayload (payload : Raw)
  deriving DecidableEq

/-- Go `Session.AsyncRPC` (part_001 lines 92-110): marshal (error returned
before any registration or send), register the caller's callback under the
operation's message id, then send; a send error is returned to the caller
with no removal of the registration.  The returned action list records the
operations in program order. -/
def Session.AsyncRPC (marshalRes : Except Unit Raw) (msgID : String)
    (cbId : Nat) (sendErr : Option Nat) (s : Session) (t : TransportState) :
    Session × TransportState × List SessionAct × Option NetconfErr :=
  match marshall marshalRes with
  | .error _ => (s, t, [], some .marshalErr)
  | .ok req =>
    let acts1 := [SessionAct.registeredKey msgID]
    let s' := { s with Listener := s.Listener.Register msgID cbId }
    let t' := t.Send req
    let acts2 := acts1 ++ [SessionAct.sentPayload req]
    match sendErr with
    | some c => (s', t', acts2, some (.transportErr c))
    | none => (s', t', acts2, none)

theorem Dispatcher.hasKey_Register (d : Dispatcher) (key : String) (cb : Nat) :
    (d.Register key cb).hasKey key = true := by
  simp [Dispatcher.Register, Dispatcher.hasKey]

/-- C10: `AsyncRPC` registers the callback under the operation's message id
before sending (the action trace is registration first, send second); a
marshalling failure is returned before any registration or send (state
unchanged, empty trace); and on a send failure the send error is returned
while the registration remains in the dispatcher. -/
theorem asyncRPC_register_before_send (val : Raw) (msgID : String)
    (cbId : Nat) (sendErr : Option Nat) (s : Session) (t : TransportState) :
    Session.AsyncRPC (Except.error ()) msgID cbId sendErr s t
        = (s, t, [], some NetconfErr.marshalErr)
    ∧ (Session.AsyncRPC (Except.ok val) msgID cbId sendErr s t).2.2.1
        = [SessionAct.registeredKey msgID,
           SessionAct.sentPayload (xmlHeader ++ val)]
    ∧ (Session.AsyncRPC (Except.ok val) msgID cbId sendErr s
        t).1.Listener.hasKey msgID = true
    ∧ ∀ c, sendErr = some c →
        (Session.AsyncRPC (Except.ok val) msgID cbId sendErr s t).2.2.2
          = some (NetconfErr.transportErr c) := by
  refine ⟨rfl, ?_, ?_, ?_⟩
  · cases sendErr <;> rfl
  · cases sendErr <;>
      simp [Session.AsyncRPC, marshall, Dispatcher.hasKey_Register]
  · intro c hc
    subst hc
    rfl

/-- Witness for C10 at a concrete operation whose send fails. -/
theorem asyncRPC_register_before_send_witness :
    (Session.AsyncRPC (Except.ok helloVal) "77" 3 (some 4) goZeroSession
        t0).2.2.1
      = [SessionAct.registeredKey "77",
         SessionAct.sentPayload (xmlHeader ++ helloVal)]
    ∧ (Session.AsyncRPC (Except.ok helloVal) "77" 3 (some 4) goZeroSession
        t0).1.Listener.hasKey "77" = true
    ∧ (Session.AsyncRPC (Except.ok helloVal) "77" 3 (some 4) goZeroSession
        t0).2.2.2 = some (NetconfErr.transportErr 4) :=
  ⟨(asyncRPC_register_before_send helloVal "77" 3 (some 4) goZeroSession
      t0).2.1,
   (asyncRPC_register_before_send helloVal "77" 3 (some 4) goZeroSession
      t0).2.2.1,
   (asyncRPC_register_before_send helloVal "77" 3 (some 4) goZeroSession
      t0).2.2.2 4 rfl⟩
